import Mathlib

/-!
Shallow embedding of `src/WxAlert.py` (a background weather-warning poller):
the severity classifier `determine_severity`, the fetch/extract function
`fetch_and_parse_warning`, the alert presentation guard `display_alert`, and
one iteration of the polling loop `main_loop`.

Python strings are modelled as Lean `String`; `str.lower` and `str.strip` are
modelled for the ASCII range (`pyLower`, `pyStrip`); the Python substring test
`needle in hay` is `strIn`.  Network and GUI effects are modelled by explicit
environment parameters (`FetchEnv`, `GuiOutcome`) that say which external
operation fails, mirroring the `try/except` structure of the source.
-/

namespace WxAlert

/-- Model of Python `str.lower` on one character (ASCII range). -/
def pyLowerChar (c : Char) : Char :=
  if 'A' ≤ c && c ≤ 'Z' then Char.ofNat (c.toNat + 32) else c

/-- Model of Python `str.lower` (ASCII range). -/
def pyLower (s : String) : String := ⟨s.data.map pyLowerChar⟩

/-- Characters removed by Python `str.strip()` with no argument. -/
def pyIsSpace (c : Char) : Bool :=
  c = ' ' || c = '\t' || c = '\n' || c = '\r' || c = '\x0B' || c = '\x0C'

/-- Model of Python `str.strip()`: drop leading and trailing whitespace. -/
def pyStrip (s : String) : String :=
  ⟨((s.data.dropWhile pyIsSpace).reverse.dropWhile pyIsSpace).reverse⟩

/-- `subOf needle hay`: `needle` occurs as a contiguous sublist of `hay`. -/
def subOf (needle : List Char) : List Char → Bool
  | [] => needle.isEmpty
  | c :: t => needle.isPrefixOf (c :: t) || subOf needle t

/-- Model of the Python substring test `needle in hay`. -/
def strIn (needle hay : String) : Bool := subOf needle.data hay.data

/-- Source lines 34-41: ordered case-insensitive keyword rules over the
warning title; the first matching rule wins. -/
def determine_severity (warning_title : String) : String :=
  let title_lower := pyLower warning_title
  if strIn "cancellation" title_lower then "All Clear"
  else if strIn "tornado" title_lower || strIn "destructive" title_lower then "Deadly"
  else if strIn "severe" title_lower || strIn "fire" title_lower then "Major"
  else if strIn "strong wind" title_lower || strIn "hazardous surf" title_lower then "Minor"
  else "Default"

/-- The configuration dictionary produced by `load_config` /
`run_first_time_setup` (source lines 117-121). -/
structure Config where
  state : String
  town : String
  warning_file : String
deriving DecidableEq, Repr

/-- The dictionary returned by `fetch_and_parse_warning` on success
(source line 162). -/
structure Warning where
  id : String
  title : String
  message : String
deriving DecidableEq, Repr

/-- The parsed XML tree as seen through the six `root.find` calls of
`fetch_and_parse_warning` (source lines 144-159).  Each field is
`none` when the element is absent (`find` returns `None`), and
`some none` when the element exists but has no text (`.text is None`). -/
structure Doc where
  area : Option (Option String)
  title : Option (Option String)
  headline : Option (Option String)
  situation : Option (Option String)
  identifier : Option (Option String)
  issueTime : Option (Option String)
deriving DecidableEq, Repr

/-- Source lines 144-169: the parse/extract body of `fetch_and_parse_warning`
run on an already retrieved and XML-parsed document.  Any Python exception
raised inside the `try` block (`AttributeError` from `.text` on a missing
element, `TypeError` from `None + str`, `AttributeError` from `None.strip()`)
is caught by `except Exception` at line 165 and yields `None`; a `headline`
or `situation` element whose text is `None` is rendered as the string
`"None"` by the f-string at line 160. -/
def extractWarning (config : Config) (d : Doc) : Option Warning :=
  match d.area with
  | none => none
  | some none => none
  | some (some area_desc) =>
    match d.identifier, d.issueTime with
    | some (some idText), some (some issText) =>
      let warning_id := idText ++ issText
      if strIn (pyLower config.town) (pyLower area_desc) then
        match d.title, d.headline, d.situation with
        | some (some t), some hl, some st =>
          let headlineStr := match hl with | some s => s | none => "None"
          let situationStr := match st with | some s => s | none => "None"
          let full_message := headlineStr ++ "\n\n" ++ situationStr
          some { id := warning_id, title := pyStrip t, message := pyStrip full_message }
        | _, _, _ => none
      else none
    | _, _ => none

/-- Outcome of the external FTP/parse operations inside
`fetch_and_parse_warning` (source lines 131-141): which call, if any, raises.
`retrPermFail` is `ftplib.error_perm` from `RETR` (the warning file is absent
on the server); `connectFail`, `loginFail`, `cwdFail`, `retrOtherFail` are
network-level exceptions (timeout, DNS, connection refused, protocol errors);
`parseFail` is `ET.parse` raising on malformed bytes; `ok` carries the parsed
document. -/
inductive FetchEnv where
  | connectFail
  | loginFail
  | cwdFail
  | retrPermFail
  | retrOtherFail
  | parseFail
  | ok (d : Doc)
deriving DecidableEq

/-- Source lines 128-169: `fetch_and_parse_warning`.  `except ftplib.error_perm`
(line 164) returns `None`; `except Exception` (lines 165-168) prints the error
and returns `None`; on success the extract body runs. -/
def fetch_and_parse_warning (config : Config) (env : FetchEnv) : Option Warning :=
  match env with
  | .ok d => extractWarning config d
  | .retrPermFail => none
  | _ => none

/-- Whether the FTP connection is opened during `fetch_and_parse_warning`
under outcome `env`: `ftplib.FTP(...)` at line 131 succeeds in every case
except when the connect itself raises. -/
def connectionOpened : FetchEnv → Bool
  | .connectFail => false
  | _ => true

/-- Whether `ftp.quit()` (source line 137) executes before
`fetch_and_parse_warning` returns under outcome `env`: it is reached only
when connect, login, cwd and RETR all succeed; there is no `finally` or
`with` block, so any earlier exception jumps to the `except` handlers with
the connection still open. -/
def quitCalled : FetchEnv → Bool
  | .parseFail => true
  | .ok _ => true
  | _ => false

/-- Outcome of the tkinter presentation code in `display_alert`
(source lines 54-69): it either completes normally or raises. -/
inductive GuiOutcome where
  | completes
  | raises
deriving DecidableEq

/-- How `display_alert` returns to `main_loop`. -/
inductive DispResult where
  | ok
  | raised
deriving DecidableEq

/-- Source lines 48-69: `display_alert`.  Returns (full-screen alert shown,
how the call returned).  When the title classifies as `"All Clear"` the
function returns at line 52 before any window is created (normal return,
nothing shown); otherwise the tkinter presentation runs and may raise. -/
def display_alert (title : String) (gui : GuiOutcome) : Bool × DispResult :=
  if determine_severity title = "All Clear" then (false, .ok)
  else
    match gui with
    | .completes => (true, .ok)
    | .raises => (false, .raised)

/-- Result of one iteration of the `while True` loop in `main_loop`. -/
structure CycleResult where
  novel : Bool
  shown : Bool
  processed : Option String
deriving DecidableEq, Repr

/-- Source lines 180-197: the body of one `main_loop` cycle, given the value
returned by `fetch_and_parse_warning` and the GUI outcome.  `processed` is
`processed_warning_id`.  If a warning is returned and its id differs from
`processed_warning_id`, `display_alert` is invoked; the assignment
`processed_warning_id = warning["id"]` at line 187 runs only if
`display_alert` returns normally (an exception is caught by the outer
`except Exception` at line 195, which logs and leaves the state alone).
If no warning is returned, `processed_warning_id = None` (line 189). -/
def main_loop_body (warning : Option Warning) (gui : GuiOutcome)
    (processed : Option String) : CycleResult :=
  match warning with
  | some w =>
    if some w.id ≠ processed then
      match display_alert w.title gui with
      | (sh, .ok) => ⟨true, sh, some w.id⟩
      | (sh, .raised) => ⟨true, sh, processed⟩
    else ⟨false, false, processed⟩
  | none => ⟨false, false, none⟩

/-- One full cycle of `main_loop`: fetch/parse then the loop body. -/
def main_loop_cycle (config : Config) (env : FetchEnv) (gui : GuiOutcome)
    (processed : Option String) : CycleResult :=
  main_loop_body (fetch_and_parse_warning config env) gui processed

/-- A concrete configuration, as `run_first_time_setup` would save for
Queensland / Ipswich. -/
def cfgIpswich : Config :=
  { state := "Queensland", town := "Ipswich", warning_file := "IDQ21037.xml" }

/-- `true` on every `FetchEnv` outcome in which some external operation
raised, i.e. `fetch_and_parse_warning` went through one of its `except`
handlers instead of running the extract body. -/
def fetchFailed : FetchEnv → Bool
  | .ok _ => false
  | _ => true

/-- A fully populated document whose area summary mentions Ipswich. -/
def docSevere : Doc :=
  { area := some (some "Warning for Ipswich and surrounds"),
    title := some (some " Severe Thunderstorm Warning "),
    headline := some (some "HEADLINE"),
    situation := some (some "SITUATION"),
    identifier := some (some "IDQ21037"),
    issueTime := some (some "20240101T000000Z") }

/-- A fully populated document whose area summary does not mention Ipswich. -/
def docBrisbane : Doc :=
  { docSevere with area := some (some "Brisbane and surrounding suburbs") }

/-- A fully populated document whose area-summary element is present but has
empty text. -/
def docEmptyArea : Doc :=
  { docSevere with area := some (some "") }

/-- A configuration whose town field is the empty string (nothing in
`load_config` rules this out: `config.json` is read without validation). -/
def cfgEmptyTown : Config :=
  { state := "Queensland", town := "", warning_file := "IDQ21037.xml" }

/-- The warning `fetch_and_parse_warning cfgIpswich (.ok docSevere)` yields. -/
def wSevere : Warning :=
  { id := "IDQ2103720240101T000000Z", title := "Severe Thunderstorm Warning",
    message := "HEADLINE\n\nSITUATION" }

/-- A warning whose title is a cancellation bulletin. -/
def wCancel : Warning :=
  { id := "IDQ2103720240102T000000Z",
    title := "Cancellation of Severe Thunderstorm Warning",
    message := "The warning is cancelled." }

/-! ## Helper lemmas -/

theorem strIn_pyLower_in_empty (town : String) (h : town ≠ "") :
    strIn (pyLower town) (pyLower "") = false := by
  obtain ⟨l⟩ := town
  cases l with
  | nil => exact absurd rfl h
  | cons c cs => rfl

theorem body_processed_of_completes (w : Warning) (p : Option String) :
    (main_loop_body (some w) GuiOutcome.completes p).processed = some w.id := by
  by_cases hp : some w.id = p
  · simp [main_loop_body, hp]
  · simp only [main_loop_body, ne_eq, hp, not_false_eq_true, if_true, display_alert]
    split_ifs <;> rfl

/-! ## Claims -/

/-- C1 (counterexample): a cycle whose fetch fails with a network-level error
(`retrOtherFail`, e.g. a timeout during `RETR`) does alter the tracker state:
the prior `processed_warning_id` is overwritten with `None`, because the
exception is swallowed inside `fetch_and_parse_warning` (returning `None`)
and `main_loop` then takes the no-warning branch at line 189. -/
theorem network_failure_resets_tracker_cex :
    (main_loop_cycle cfgIpswich FetchEnv.retrOtherFail GuiOutcome.completes
        (some "IDQ2103720240101T000000Z")).processed = none ∧
    (main_loop_cycle cfgIpswich FetchEnv.retrOtherFail GuiOutcome.completes
        (some "IDQ2103720240101T000000Z")).processed ≠
      some "IDQ2103720240101T000000Z" := by decide

/-- C1 (amended): when the fetch/parse step fails — `NetworkError` at connect,
login, cwd or retrieval, or a parse failure, or the `NotFound` case — the
exception is caught inside `fetch_and_parse_warning`, which returns `None`;
the cycle then takes the no-warning branch and resets `processed_warning_id`
to `None` (and fires no notification).  A failed cycle therefore overwrites
the tracker state with "none" instead of leaving it unchanged. -/
theorem failed_cycle_resets_tracker (config : Config) (env : FetchEnv)
    (gui : GuiOutcome) (p : Option String) (hfail : fetchFailed env = true) :
    fetch_and_parse_warning config env = none ∧
    (main_loop_cycle config env gui p).processed = none ∧
    (main_loop_cycle config env gui p).novel = false := by
  cases env <;>
    simp_all [fetchFailed, fetch_and_parse_warning, main_loop_cycle, main_loop_body]

/-- C1 (witness for the amended theorem): at a concrete failed cycle the
tracker slot comes out `none` and no notification fires. -/
theorem failed_cycle_resets_tracker_witness :
    fetch_and_parse_warning cfgIpswich FetchEnv.connectFail = none ∧
    (main_loop_cycle cfgIpswich FetchEnv.connectFail GuiOutcome.completes
        (some "OLD")).processed = none ∧
    (main_loop_cycle cfgIpswich FetchEnv.connectFail GuiOutcome.completes
        (some "OLD")).novel = false :=
  failed_cycle_resets_tracker cfgIpswich FetchEnv.connectFail
    GuiOutcome.completes (some "OLD") rfl

/-- C2 (counterexample): the `NotFound` outcome (`ftplib.error_perm` from
`RETR`, file absent) and a network-level failure both make
`fetch_and_parse_warning` return the very same value `None` — they are not
distinguished in the value returned to the caller. -/
theorem notfound_not_distinguished_cex :
    fetch_and_parse_warning cfgIpswich FetchEnv.retrPermFail = none ∧
    fetch_and_parse_warning cfgIpswich FetchEnv.retrOtherFail = none ∧
    fetch_and_parse_warning cfgIpswich FetchEnv.retrPermFail =
      fetch_and_parse_warning cfgIpswich FetchEnv.retrOtherFail :=
  ⟨rfl, rfl, rfl⟩

/-- C2 (amended): neither `NotFound` nor any network failure is raised to the
caller as a fatal error — both are caught inside `fetch_and_parse_warning` —
but they are not returned as distinguishable typed results: every failure
collapses to the same untyped `None`, the value also used for "document
fetched but no matching warning" (network failures differ only in a console
log, not in the returned value). -/
theorem fetch_failures_collapse_to_none (config : Config) :
    fetch_and_parse_warning config FetchEnv.retrPermFail = none ∧
    fetch_and_parse_warning config FetchEnv.connectFail = none ∧
    fetch_and_parse_warning config FetchEnv.retrOtherFail = none ∧
    fetch_and_parse_warning config FetchEnv.parseFail = none ∧
    fetch_and_parse_warning config FetchEnv.retrPermFail =
      fetch_and_parse_warning config FetchEnv.retrOtherFail :=
  ⟨rfl, rfl, rfl, rfl, rfl⟩

/-- C3 (code evaluated at the failing input): when `RETR` raises
`ftplib.error_perm` (the warning file is absent — the routine `NotFound`
case), the connection has been opened but `ftp.quit()` (line 137) is never
reached: the `except` handler returns with the connection still open.  The
same holds for login/cwd/retrieval network failures; `quit` runs only when
retrieval fully succeeds (the parse step sits after `ftp.quit()`). -/
theorem connection_not_released_on_failure :
    connectionOpened FetchEnv.retrPermFail = true ∧
    quitCalled FetchEnv.retrPermFail = false ∧
    connectionOpened FetchEnv.loginFail = true ∧
    quitCalled FetchEnv.loginFail = false ∧
    connectionOpened FetchEnv.retrOtherFail = true ∧
    quitCalled FetchEnv.retrOtherFail = false ∧
    quitCalled FetchEnv.parseFail = true ∧
    quitCalled (FetchEnv.ok docSevere) = true := by decide

/-- C4: `determine_severity` is total (it is a plain Lean function of the
title string) and implements the ordered, case-insensitive keyword rules with
first match winning: `cancellation` → All Clear, else `tornado`/`destructive`
→ Deadly, else `severe`/`fire` → Major, else `strong wind`/`hazardous surf`
→ Minor, else Default.  In particular a title containing `cancellation`
classifies as All Clear no matter which other keywords are present. -/
theorem determine_severity_rule_order (t : String) :
    (strIn "cancellation" (pyLower t) = true →
      determine_severity t = "All Clear") ∧
    (strIn "cancellation" (pyLower t) = false →
      (strIn "tornado" (pyLower t) || strIn "destructive" (pyLower t)) = true →
      determine_severity t = "Deadly") ∧
    (strIn "cancellation" (pyLower t) = false →
      (strIn "tornado" (pyLower t) || strIn "destructive" (pyLower t)) = false →
      (strIn "severe" (pyLower t) || strIn "fire" (pyLower t)) = true →
      determine_severity t = "Major") ∧
    (strIn "cancellation" (pyLower t) = false →
      (strIn "tornado" (pyLower t) || strIn "destructive" (pyLower t)) = false →
      (strIn "severe" (pyLower t) || strIn "fire" (pyLower t)) = false →
      (strIn "strong wind" (pyLower t) || strIn "hazardous surf" (pyLower t)) = true →
      determine_severity t = "Minor") ∧
    (strIn "cancellation" (pyLower t) = false →
      (strIn "tornado" (pyLower t) || strIn "destructive" (pyLower t)) = false →
      (strIn "severe" (pyLower t) || strIn "fire" (pyLower t)) = false →
      (strIn "strong wind" (pyLower t) || strIn "hazardous surf" (pyLower t)) = false →
      determine_severity t = "Default") := by
  refine ⟨?_, ?_, ?_, ?_, ?_⟩ <;> intros <;> simp_all [determine_severity]

/-- C4 (witness): a title containing both `tornado` and `cancellation`
classifies as All Clear — the cancellation rule fires first. -/
theorem determine_severity_rule_order_witness :
    determine_severity "Tornado Warning CANCELLATION" = "All Clear" :=
  (determine_severity_rule_order "Tornado Warning CANCELLATION").1 rfl

/-- C5 (counterexample): with an empty configured town string (which
`load_config` does not rule out) and an area-summary element present with
empty text, the extractor does NOT return none: Python's `"" in ""` is true,
so line 156 matches and an occurrence is returned even though the
area-summary text is empty. -/
theorem extract_empty_area_cex :
    docEmptyArea.area = some (some "") ∧
    extractWarning cfgEmptyTown docEmptyArea =
      some { id := "IDQ2103720240101T000000Z",
             title := "Severe Thunderstorm Warning",
             message := "HEADLINE\n\nSITUATION" } ∧
    extractWarning cfgEmptyTown docEmptyArea ≠ none := by decide

/-- C5 (amended): for every well-formed document and every NONEMPTY
configured town string, the extractor returns none whenever the area-summary
element is absent, its text is missing or empty, or its text does not contain
the town as a case-insensitive substring.  (With an empty town string the
substring test succeeds against every area text, including the empty one, so
the empty-text case can return an occurrence.) -/
theorem extract_none_of_no_match (config : Config) (d : Doc)
    (htown : config.town ≠ "")
    (h : d.area = none ∨ d.area = some none ∨ d.area = some (some "") ∨
      ∀ s, d.area = some (some s) →
        strIn (pyLower config.town) (pyLower s) = false) :
    extractWarning config d = none := by
  obtain ⟨a, ti, hl, st, idf, iss⟩ := d
  rcases h with h | h | h | h
  · simp only at h
    subst h
    rfl
  · simp only at h
    subst h
    rfl
  · simp only at h
    subst h
    have hfalse := strIn_pyLower_in_empty config.town htown
    rcases idf with _ | _ | idText <;> rcases iss with _ | _ | issText <;>
      simp_all [extractWarning]
  · cases a with
    | none => rfl
    | some o =>
      cases o with
      | none => rfl
      | some s =>
        have hfalse := h s rfl
        rcases idf with _ | _ | idText <;> rcases iss with _ | _ | issText <;>
          simp_all [extractWarning]

/-- C5 (witness): an absent area section, and an area summary of "Brisbane
and surrounding suburbs" with town "Ipswich", both yield none. -/
theorem extract_none_of_no_match_witness :
    extractWarning cfgIpswich
      { area := none, title := none, headline := none, situation := none,
        identifier := none, issueTime := none } = none ∧
    extractWarning cfgIpswich docBrisbane = none :=
  ⟨extract_none_of_no_match cfgIpswich _ (by decide) (Or.inl rfl),
   extract_none_of_no_match cfgIpswich docBrisbane (by decide)
     (Or.inr (Or.inr (Or.inr (fun s hs => by
       simp only [docBrisbane, docSevere, Option.some.injEq] at hs
       subst hs
       decide))))⟩

/-- C6: for every document whose six addressed fields are present with text
and whose area summary contains the configured town case-insensitively, the
extractor returns an occurrence whose identity is the plain concatenation of
the identifier and issue-timestamp fields, whose title is the title field
stripped of surrounding whitespace, and whose message is the headline, a
blank line and the synoptic-situation text, stripped. -/
theorem extract_occurrence_fields (config : Config) (d : Doc)
    (area idText issText t hl st : String)
    (ha : d.area = some (some area))
    (hid : d.identifier = some (some idText))
    (hiss : d.issueTime = some (some issText))
    (ht : d.title = some (some t))
    (hhl : d.headline = some (some hl))
    (hst : d.situation = some (some st))
    (hmatch : strIn (pyLower config.town) (pyLower area) = true) :
    extractWarning config d =
      some { id := idText ++ issText, title := pyStrip t,
             message := pyStrip (hl ++ "\n\n" ++ st) } := by
  obtain ⟨a, ti, hl', st', idf, iss⟩ := d
  simp only at ha hid hiss ht hhl hst
  subst ha hid hiss ht hhl hst
  simp [extractWarning, hmatch]

/-- C6 (witness): on the concrete Ipswich document the extractor returns the
expected occurrence, with the identity the exact concatenation
`"IDQ21037" ++ "20240101T000000Z"`. -/
theorem extract_occurrence_fields_witness :
    extractWarning cfgIpswich docSevere =
      some { id := "IDQ2103720240101T000000Z",
             title := "Severe Thunderstorm Warning",
             message := "HEADLINE\n\nSITUATION" } :=
  (extract_occurrence_fields cfgIpswich docSevere
    "Warning for Ipswich and surrounds" "IDQ21037" "20240101T000000Z"
    " Severe Thunderstorm Warning " "HEADLINE" "SITUATION"
    rfl rfl rfl rfl rfl rfl rfl).trans (by decide)

/-- C7: re-observing the same non-none occurrence is reported novel only the
first time.  If the current id equals the stored `processed_warning_id`, the
cycle reports not-novel, shows nothing, and leaves the state unchanged; and
after a cycle whose presentation completes, a second cycle with the same
warning is not novel. -/
theorem reconfirmed_warning_not_novel (w : Warning) (gui gui2 : GuiOutcome)
    (p : Option String) :
    (some w.id = p → main_loop_body (some w) gui p = ⟨false, false, p⟩) ∧
    (main_loop_body (some w) GuiOutcome.completes p).processed = some w.id ∧
    (main_loop_body (some w) gui2
        (main_loop_body (some w) GuiOutcome.completes p).processed).novel =
      false := by
  refine ⟨fun h => by simp [main_loop_body, h], body_processed_of_completes w p, ?_⟩
  rw [body_processed_of_completes w p]
  simp [main_loop_body]

/-- C7 (witness): observing `wSevere` when its id is already stored reports
not-novel and leaves the state unchanged. -/
theorem reconfirmed_warning_not_novel_witness :
    main_loop_body (some wSevere) GuiOutcome.completes
        (some "IDQ2103720240101T000000Z") =
      ⟨false, false, some "IDQ2103720240101T000000Z"⟩ :=
  (reconfirmed_warning_not_novel wSevere GuiOutcome.completes
    GuiOutcome.completes (some "IDQ2103720240101T000000Z")).1 rfl

/-- C8: reset law.  Observing a "none" current occurrence yields not-novel
with the tracker reset to `none`, for every prior state `X`; and a subsequent
observation of any occurrence (in particular one whose identity equals the
previously stored one) against the reset state is reported novel again. -/
theorem none_resets_tracker (X : Option String) (w : Warning)
    (gui gui2 : GuiOutcome) :
    main_loop_body none gui X = ⟨false, false, none⟩ ∧
    (main_loop_body (some w) gui2
        (main_loop_body none gui (some w.id)).processed).novel = true := by
  refine ⟨rfl, ?_⟩
  simp [main_loop_body, display_alert]
  split_ifs <;> cases gui2 <;> rfl

/-- C9: a novel occurrence whose title classifies as All Clear is deemed
novel, but no alert presentation is shown: `display_alert` returns at its
All-Clear guard before creating any window. -/
theorem allclear_suppresses_alert (w : Warning) (gui : GuiOutcome)
    (p : Option String) (hnovel : some w.id ≠ p)
    (hac : determine_severity w.title = "All Clear") :
    (display_alert w.title gui).1 = false ∧
    (main_loop_body (some w) gui p).novel = true ∧
    (main_loop_body (some w) gui p).shown = false := by
  have hd : display_alert w.title gui = (false, DispResult.ok) := by
    simp [display_alert, hac]
  refine ⟨by simp [hd], ?_, ?_⟩ <;> simp [main_loop_body, hnovel, hd]

/-- C9 (witness): the concrete cancellation bulletin `wCancel` is novel
against an empty tracker but shows no alert. -/
theorem allclear_suppresses_alert_witness :
    (display_alert wCancel.title GuiOutcome.completes).1 = false ∧
    (main_loop_body (some wCancel) GuiOutcome.completes none).novel = true ∧
    (main_loop_body (some wCancel) GuiOutcome.completes none).shown = false :=
  allclear_suppresses_alert wCancel GuiOutcome.completes none
    (by decide) (by decide)

/-- C10: in a cycle with a novel occurrence, `processed_warning_id` is
updated to the new id exactly when `display_alert` returns normally.  A
suppressed All-Clear presentation returns normally and still records the id
(showing nothing); if the presentation raises, the state is left unchanged,
the same occurrence is novel again on the next cycle, and a later cycle whose
presentation completes shows it and records it. -/
theorem processed_updated_iff_display_returns (w : Warning) (gui : GuiOutcome)
    (p : Option String) (hnovel : some w.id ≠ p) :
    ((main_loop_body (some w) gui p).processed = some w.id ↔
      (display_alert w.title gui).2 = DispResult.ok) ∧
    (determine_severity w.title = "All Clear" →
      (main_loop_body (some w) gui p).processed = some w.id ∧
      (main_loop_body (some w) gui p).shown = false) ∧
    ((display_alert w.title gui).2 = DispResult.raised →
      (main_loop_body (some w) gui p).processed = p ∧
      (main_loop_body (some w) gui
          (main_loop_body (some w) gui p).processed).novel = true ∧
      (main_loop_body (some w) GuiOutcome.completes p).shown = true ∧
      (main_loop_body (some w) GuiOutcome.completes p).processed =
        some w.id) := by
  by_cases hac : determine_severity w.title = "All Clear" <;> cases gui <;>
    simp_all [main_loop_body, display_alert, hnovel]
  simp only [eq_comm] at hnovel
  simp [hnovel]

/-- C10 (witness): with the severe-thunderstorm occurrence and a raising
presentation, the state stays `none` and a later completing cycle records the
id; the All-Clear conjunct is exercised through the iff at a completing
cycle. -/
theorem processed_updated_iff_display_returns_witness :
    (main_loop_body (some wSevere) GuiOutcome.raises none).processed = none ∧
    (main_loop_body (some wSevere) GuiOutcome.completes none).processed =
      some wSevere.id := by
  have h := processed_updated_iff_display_returns wSevere GuiOutcome.raises
    none (by decide)
  exact ⟨(h.2.2 (by decide)).1, (h.2.2 (by decide)).2.2.2⟩

end WxAlert
